import Mathlib

/-!
Shallow embedding of the two serverless HTTP handlers of the
synapse-thesaurus repository:

* `src/backend/export/index.py`  — export text + replacement history to
  PDF or DOCX (with a plain-text fallback when the rendering library is
  unavailable), returning the file base64-encoded;
* `src/backend/synonyms/index.py` — synonym lookup via the Datamuse API
  plus an optional contextual lookup via an LLM API.

Modelling conventions:

* JSON request bodies are modelled as records of `Option` fields
  (`body_data.get(k, default)` becomes `field.getD default`); an
  unparseable body (`json.loads` raising) is modelled as `none` at the
  event level and yields the 500 branch.
* Outbound HTTP calls are modelled as oracle parameters: `none` stands
  for any failure the surrounding `try/except` swallows (network error,
  timeout, malformed JSON, a reply item missing a required key, a
  non-list LLM reply), `some v` for a successful, well-formed reply.
* `datetime.now()` is modelled as explicit string parameters
  (`nowFull` for the human-readable timestamp inside the document,
  `nowFile` for the compact timestamp in the file name).
* The rich renderers (reportlab / python-docx) are third-party black
  boxes: each is an oracle `Option (String → List Replacement → List Nat)`;
  `none` models the `ImportError` path.
* Bytes are `Nat` lists (each element < 256 for real byte strings);
  `.encode('utf-8')` is modelled by an explicit UTF-8 encoder.
* Response CORS headers and the constant `isBase64Encoded` flag are the
  same on every branch of the source and are not modelled.
* `Char.toLower` / `String.toLower` use ASCII simple-case folding, which
  agrees with Python `str.lower()` on all ASCII and Cyrillic input (the
  exotic one-to-many Unicode case mappings are not exercised here).
-/

/-- A replacement record `{original, replacement, timestamp}`; the source
reads each field with `rep.get(k, '')`, so fields are optional. -/
structure Replacement where
  original : Option String
  replacement : Option String
  timestamp : Option String
deriving Repr, DecidableEq

/-- A JSON value as far as this code inspects one: a string, or anything
else (numbers, nested objects, …), which the handlers never look inside. -/
inductive JVal where
  | str (s : String)
  | other
deriving Repr, DecidableEq

/-- A JSON object, as an association list of string keys (Python dicts
have unique keys; lookup takes the first match, update replaces in
place, matching dict assignment). -/
abbrev JDict := List (String × JVal)

/-- Membership test, Python `k in d` on a dict. -/
def hasKey (k : String) (d : JDict) : Bool :=
  d.any (fun p => p.1 = k)

/-- Lookup, Python `d[k]` on a dict (first binding). -/
def getKey (k : String) (d : JDict) : Option JVal :=
  (List.find? (fun p => p.1 = k) d).map (fun p => p.2)

/-- Assignment, Python `d[k] = v` on a dict: replace the binding if present,
append it otherwise. -/
def setKey (k : String) (v : JVal) (d : JDict) : JDict :=
  if hasKey k d then d.map (fun p => if p.1 = k then (k, v) else p)
  else d ++ [(k, v)]

/-- The HTTP response body shapes the two handlers produce
(`json.dumps` of the corresponding Python dict). -/
inductive RespBody where
  | empty
  | error (msg : String)
  | exportOk (filename : String) (content : String) (contentType : String) (size : Nat)
  | synOk (word : String) (language : String) (synonyms : List JDict) (count : Nat)
deriving Repr, DecidableEq

/-- The `{statusCode, body}` pair of the serverless response convention. -/
structure Response where
  statusCode : Nat
  body : RespBody
deriving Repr, DecidableEq

/-! ### Base64 (`base64.b64encode`) and UTF-8 (`str.encode('utf-8')`) -/

/-- The standard base64 alphabet, index → character. -/
def b64Char (n : Nat) : Char :=
  if n < 26 then Char.ofNat (65 + n)
  else if n < 52 then Char.ofNat (97 + (n - 26))
  else if n < 62 then Char.ofNat (48 + (n - 52))
  else if n = 62 then '+'
  else '/'

/-- The standard base64 alphabet, character → index. -/
def b64Val (c : Char) : Nat :=
  let n := c.toNat
  if 65 ≤ n ∧ n ≤ 90 then n - 65
  else if 97 ≤ n ∧ n ≤ 122 then n - 97 + 26
  else if 48 ≤ n ∧ n ≤ 57 then n - 48 + 52
  else if n = 43 then 62
  else if n = 47 then 63
  else 0

/-- Base64-encode a byte list, three bytes → four characters, padding
with `=` exactly as `base64.b64encode` does. -/
def encChunk : List Nat → List Char
  | [] => []
  | [a] => [b64Char (a / 4), b64Char (a % 4 * 16), '=', '=']
  | [a, b] => [b64Char (a / 4), b64Char (a % 4 * 16 + b / 16), b64Char (b % 16 * 4), '=']
  | a :: b :: d :: rest =>
      b64Char (a / 4) :: b64Char (a % 4 * 16 + b / 16) ::
      b64Char (b % 16 * 4 + d / 64) :: b64Char (d % 64) :: encChunk rest

/-- Base64-decode four characters → up to three bytes (the behaviour of
`base64.b64decode` on well-formed input). -/
def decChunk : List Char → List Nat
  | c1 :: c2 :: c3 :: c4 :: rest =>
      if c3 = '=' then [b64Val c1 * 4 + b64Val c2 / 16]
      else if c4 = '=' then
        [b64Val c1 * 4 + b64Val c2 / 16, b64Val c2 % 16 * 16 + b64Val c3 / 4]
      else
        (b64Val c1 * 4 + b64Val c2 / 16) ::
        (b64Val c2 % 16 * 16 + b64Val c3 / 4) ::
        (b64Val c3 % 4 * 64 + b64Val c4) :: decChunk rest
  | _ => []

/-- Encoder, `base64.b64encode(bs).decode('utf-8')`. -/
def b64encode (bs : List Nat) : String := String.mk (encChunk bs)

/-- Decoder, `base64.b64decode(s)`. -/
def b64decode (s : String) : List Nat := decChunk s.data

/-- UTF-8 encoding of one character. -/
def utf8Bytes (c : Char) : List Nat :=
  if c.toNat < 128 then [c.toNat]
  else if c.toNat < 2048 then [192 + c.toNat / 64, 128 + c.toNat % 64]
  else if c.toNat < 65536 then
    [224 + c.toNat / 4096, 128 + c.toNat / 64 % 64, 128 + c.toNat % 64]
  else
    [240 + c.toNat / 262144, 128 + c.toNat / 4096 % 64,
     128 + c.toNat / 64 % 64, 128 + c.toNat % 64]

/-- Encoding `s.encode('utf-8')` as a byte list. -/
def strBytes (s : String) : List Nat :=
  (s.data.map utf8Bytes).flatten

/-- Python `str.lower()` (ASCII simple-case folding; agrees with Python
on all input this code distinguishes — see the header comment). -/
def pyLower (s : String) : String :=
  ⟨s.data.map Char.toLower⟩

/-- Python `str.strip()`: drop leading and trailing whitespace. -/
def pyStrip (s : String) : String :=
  ⟨((s.data.dropWhile Char.isWhitespace).reverse.dropWhile Char.isWhitespace).reverse⟩

/-! ### Export backend (`src/backend/export/index.py`) -/

/-- One line of the fallback replacement list:
`f"  {rep.get('original', '')} → {rep.get('replacement', '')} ({rep.get('timestamp', '')})\n"`. -/
def replLine (rep : Replacement) : String :=
  "  " ++ rep.original.getD "" ++ " → " ++ rep.replacement.getD "" ++
  " (" ++ rep.timestamp.getD "" ++ ")\n"

/-- The text assembled by `create_simple_pdf_fallback`: a title line, the
generation timestamp, the body text, then — only when `replacements` is
non-empty — a replacement-history section with one line per record. -/
def fallbackContent (nowFull text : String) (replacements : List Replacement) : String :=
  let content := "SYNAPSE - EXPORTED DOCUMENT\nGenerated: " ++ nowFull ++
    "\n\nMAIN TEXT:\n" ++ text ++ "\n\n"
  if replacements.isEmpty then content
  else content ++ "\nREPLACEMENT HISTORY:\n" ++
    String.join (replacements.map replLine)

/-- Source `create_simple_pdf_fallback(text, replacements)`: the fallback text,
UTF-8 encoded. -/
def create_simple_pdf_fallback (nowFull text : String) (replacements : List Replacement) : List Nat :=
  strBytes (fallbackContent nowFull text replacements)

/-- A rich renderer oracle: `none` models the library import failing
(`ImportError`), `some f` models a successful render producing opaque
bytes from the text and replacement list. -/
abbrev Renderer := Option (String → List Replacement → List Nat)

/-- Source `create_pdf(text, replacements)`: try the reportlab render; on
`ImportError` fall back to `create_simple_pdf_fallback`. -/
def create_pdf (richPdf : Renderer) (nowFull text : String)
    (replacements : List Replacement) : List Nat :=
  match richPdf with
  | some render => render text replacements
  | none => create_simple_pdf_fallback nowFull text replacements

/-- Source `create_docx(text, replacements)`: try the python-docx render; on
`ImportError` fall back to the same `create_simple_pdf_fallback`. -/
def create_docx (richDocx : Renderer) (nowFull text : String)
    (replacements : List Replacement) : List Nat :=
  match richDocx with
  | some render => render text replacements
  | none => create_simple_pdf_fallback nowFull text replacements

/-- The parsed JSON body of an export request: `{text, replacements, format}`,
every field optional. -/
structure ExportBody where
  text : Option String
  replacements : Option (List Replacement)
  format : Option String
deriving Repr, DecidableEq

/-- An export request event: `httpMethod` (read with default `'POST'`)
and the body; `body = none` models a body `json.loads` rejects. -/
structure ExportEvent where
  httpMethod : Option String
  body : Option ExportBody
deriving Repr, DecidableEq

/-- The `handler` function of `src/backend/export/index.py`. -/
def export_handler (richPdf richDocx : Renderer) (nowFull nowFile : String)
    (event : ExportEvent) : Response :=
  let method := event.httpMethod.getD "POST"
  if method = "OPTIONS" then { statusCode := 200, body := .empty }
  else if method = "POST" then
    match event.body with
    | none => { statusCode := 500, body := .error "JSON decode error" }
    | some bd =>
      let text := bd.text.getD ""
      let replacements := bd.replacements.getD []
      let exportFormat := pyLower (bd.format.getD "pdf")
      if text = "" then
        { statusCode := 400, body := .error "Text is required" }
      else if exportFormat = "pdf" then
        let fileBytes := create_pdf richPdf nowFull text replacements
        { statusCode := 200
          body := .exportOk ("synapse-export-" ++ nowFile ++ ".pdf")
            (b64encode fileBytes) "application/pdf" fileBytes.length }
      else if exportFormat = "docx" then
        let fileBytes := create_docx richDocx nowFull text replacements
        { statusCode := 200
          body := .exportOk ("synapse-export-" ++ nowFile ++ ".docx")
            (b64encode fileBytes)
            "application/vnd.openxmlformats-officedocument.wordprocessingml.document"
            fileBytes.length }
      else
        { statusCode := 400, body := .error "Invalid format. Use pdf or docx" }
  else { statusCode := 405, body := .error "Method not allowed" }

/-! ### Synonyms backend (`src/backend/synonyms/index.py`) -/

/-- One item of a successful Datamuse reply: a JSON object with a
mandatory `word` and optional `score` (`item.get('score', 0)`); a reply
whose item lacks `word` raises inside the `try` and is folded into the
failure (`none`) case of the fetch oracle. -/
structure DApiItem where
  word : String
  score : Option Int
deriving Repr, DecidableEq

/-- One element of `get_datamuse_synonyms`' result:
`{'word': item['word'], 'score': item.get('score', 0)}`. -/
structure DSyn where
  word : String
  score : Int
deriving Repr, DecidableEq

/-- Source `get_datamuse_synonyms(word, lang)`. Only for `lang == 'en'` is the
HTTP request issued (modelled by the `fetch` oracle; `none` is any
swallowed failure); any other language returns `[]` without a request. -/
def get_datamuse_synonyms (word lang : String)
    (fetch : Option (List DApiItem)) : List DSyn :=
  if lang = "en" then
    let _ := word   -- the request URL carries `word`; the oracle abstracts the round trip
    match fetch with
    | none => []
    | some data => data.map (fun item => { word := item.word, score := item.score.getD 0 })
  else []

/-- One element of the parsed LLM reply list: a JSON object (an
association list of fields) or any non-dict JSON value. -/
inductive JElem where
  | dict (fields : JDict)
  | nondict
deriving Repr, DecidableEq

/-- Source `get_contextual_synonyms(word, context, lang)`. Returns `[]` when the
`OPENAI_API_KEY` environment variable is absent or empty (`if not api_key`).
Otherwise the whole HTTP call / code-fence stripping / JSON parse pipeline
is the `llm` oracle: `none` is any swallowed failure or a non-list reply,
`some l` the successfully parsed list. The `word`, `context` and `lang`
arguments only shape the outbound prompt (`context` truncated to 200
characters), which the oracle abstracts. -/
def get_contextual_synonyms (word context lang : String)
    (apiKey : Option String) (llm : Option (List JElem)) : List JElem :=
  if apiKey.getD "" = "" then []
  else
    let _ := (word, context.take 200, lang)
    llm.getD []

/-- Source `detect_language(text)`: count characters in the Cyrillic block
`U+0400`–`U+04FF` versus characters that are Latin letters after
lowercasing; majority-Cyrillic gives `'ru'`, anything else `'en'`. -/
def detect_language (text : String) : String :=
  let cyrillic_chars := text.data.countP (fun c => 0x400 ≤ c.toNat && c.toNat ≤ 0x4FF)
  let latin_chars := text.data.countP (fun c => 'a' ≤ c.toLower && c.toLower ≤ 'z')
  if cyrillic_chars > latin_chars then "ru" else "en"

/-- The parsed JSON body of a synonyms request: `{word, context, lang}`,
every field optional. -/
structure SynBody where
  word : Option String
  context : Option String
  lang : Option String
deriving Repr, DecidableEq

/-- A synonyms request event: `httpMethod` (read with default `'GET'`)
and the body; `body = none` models a body `json.loads` rejects. -/
structure SynEvent where
  httpMethod : Option String
  body : Option SynBody
deriving Repr, DecidableEq

/-- The datamuse-sourced response entry built in the handler:
`{'word': syn['word'], 'context': 'general synonym', 'source': 'datamuse'}`. -/
def datamuseEntry (syn : DSyn) : JDict :=
  [("word", .str syn.word), ("context", .str "general synonym"), ("source", .str "datamuse")]

/-- The handler's contextual loop: for each element of the LLM reply,
append it with `source` set to `'contextual'` when it is a dict that has
a `word` key, and drop it otherwise. -/
def addContextual (synonyms : List JDict) (contextual : List JElem) : List JDict :=
  contextual.foldl (fun acc syn =>
    match syn with
    | .dict fields =>
        if hasKey "word" fields then acc ++ [setKey "source" (.str "contextual") fields]
        else acc
    | .nondict => acc) synonyms

/-- The element-wise content of the contextual loop: a dict with a
`word` key is kept (with `source` overwritten to `'contextual'`),
everything else is dropped. -/
def pickContextual (e : JElem) : Option JDict :=
  match e with
  | .dict fields =>
      if hasKey "word" fields then some (setKey "source" (.str "contextual") fields)
      else none
  | .nondict => none

/-- The `handler` function of `src/backend/synonyms/index.py`. -/
def syn_handler (fetch : Option (List DApiItem)) (apiKey : Option String)
    (llm : Option (List JElem)) (event : SynEvent) : Response :=
  let method := event.httpMethod.getD "GET"
  if method = "OPTIONS" then { statusCode := 200, body := .empty }
  else if method = "POST" then
    match event.body with
    | none => { statusCode := 500, body := .error "JSON decode error" }
    | some bd =>
      let word := pyLower (pyStrip (bd.word.getD ""))
      let context := bd.context.getD ""
      let lang0 := bd.lang.getD ""
      if word = "" then
        { statusCode := 400, body := .error "Word is required" }
      else
        let lang := if lang0 = "" then detect_language word else lang0
        let synonyms0 : List JDict :=
          if lang = "en" then
            ((get_datamuse_synonyms word lang fetch).take 5).map datamuseEntry
          else []
        let synonyms :=
          if context ≠ "" ∧ context.length > 10 then
            addContextual synonyms0 (get_contextual_synonyms word context lang apiKey llm)
          else synonyms0
        { statusCode := 200, body := .synOk word lang synonyms synonyms.length }
  else { statusCode := 405, body := .error "Method not allowed" }

/-- Observer: the `language` field of a synonyms success response. -/
def respLanguage : Response → Option String
  | { statusCode := _, body := .synOk _ lang _ _ } => some lang
  | _ => none

/-! ### Helper lemmas -/

/-- Every Unicode scalar value is below `0x110000`. -/
theorem char_toNat_lt (c : Char) : c.toNat < 1114112 := by
  rcases c.valid with h | ⟨_, h2⟩
  · exact Nat.lt_trans h (by norm_num)
  · exact h2

/-- Decoding inverts encoding on the base64 alphabet. -/
theorem b64Val_b64Char : ∀ n, n < 64 → b64Val (b64Char n) = n := by decide

/-- Alphabet characters are never the padding character. -/
theorem b64Char_ne_pad : ∀ n, n < 64 → b64Char n ≠ '=' := by decide

/-- Chunkwise base64 round trip on byte lists. -/
theorem decChunk_encChunk : ∀ l : List Nat, (∀ x ∈ l, x < 256) → decChunk (encChunk l) = l
  | [], _ => rfl
  | [a], h => by
      have ha : a < 256 := h a (by simp)
      simp only [encChunk, decChunk, if_true]
      rw [b64Val_b64Char _ (by omega), b64Val_b64Char _ (by omega)]
      simp only [List.cons.injEq, and_true]
      omega
  | [a, b], h => by
      have ha : a < 256 := h a (by simp)
      have hb : b < 256 := h b (by simp)
      simp only [encChunk, decChunk]
      rw [if_neg (b64Char_ne_pad _ (by omega))]
      simp only [if_true]
      rw [b64Val_b64Char _ (by omega), b64Val_b64Char _ (by omega),
        b64Val_b64Char _ (by omega)]
      simp only [List.cons.injEq, and_true]
      constructor <;> omega
  | a :: b :: d :: rest, h => by
      have ha : a < 256 := h a (by simp)
      have hb : b < 256 := h b (by simp)
      have hd : d < 256 := h d (by simp)
      have ih := decChunk_encChunk rest (fun x hx => h x (by simp [hx]))
      simp only [encChunk, decChunk]
      rw [if_neg (b64Char_ne_pad _ (by omega)), if_neg (b64Char_ne_pad _ (by omega))]
      rw [b64Val_b64Char _ (by omega), b64Val_b64Char _ (by omega),
        b64Val_b64Char _ (by omega), b64Val_b64Char _ (by omega)]
      rw [ih]
      simp only [List.cons.injEq, and_true]
      refine ⟨by omega, by omega, by omega⟩

/-- Base64 round trip on byte lists. -/
theorem b64decode_b64encode (l : List Nat) (h : ∀ x ∈ l, x < 256) :
    b64decode (b64encode l) = l :=
  decChunk_encChunk l h

/-- UTF-8 code units are bytes. -/
theorem utf8Bytes_lt (c : Char) : ∀ b ∈ utf8Bytes c, b < 256 := by
  have hc : c.toNat < 1114112 := char_toNat_lt c
  intro b hb
  simp only [utf8Bytes] at hb
  split at hb
  · simp only [List.mem_cons, List.not_mem_nil, or_false] at hb
    omega
  · split at hb
    · simp only [List.mem_cons, List.not_mem_nil, or_false] at hb
      rcases hb with rfl | rfl <;> omega
    · split at hb
      · simp only [List.mem_cons, List.not_mem_nil, or_false] at hb
        rcases hb with rfl | rfl | rfl <;> omega
      · simp only [List.mem_cons, List.not_mem_nil, or_false] at hb
        rcases hb with rfl | rfl | rfl | rfl <;> omega

/-- UTF-8 encoded strings are byte lists. -/
theorem strBytes_lt (s : String) : ∀ b ∈ strBytes s, b < 256 := by
  intro b hb
  simp only [strBytes, List.mem_flatten, List.mem_map] at hb
  obtain ⟨l, ⟨c, _, rfl⟩, hbl⟩ := hb
  exact utf8Bytes_lt c b hbl

/-- Function `create_pdf` only produces bytes when its renderer oracle does. -/
theorem create_pdf_lt (richPdf : Renderer) (nowFull text : String)
    (reps : List Replacement)
    (hp : ∀ f, richPdf = some f → ∀ t r, ∀ b ∈ f t r, b < 256) :
    ∀ b ∈ create_pdf richPdf nowFull text reps, b < 256 := by
  cases richPdf with
  | none => exact strBytes_lt _
  | some f => exact hp f rfl text reps

/-- Function `create_docx` only produces bytes when its renderer oracle does. -/
theorem create_docx_lt (richDocx : Renderer) (nowFull text : String)
    (reps : List Replacement)
    (hp : ∀ f, richDocx = some f → ∀ t r, ∀ b ∈ f t r, b < 256) :
    ∀ b ∈ create_docx richDocx nowFull text reps, b < 256 := by
  cases richDocx with
  | none => exact strBytes_lt _
  | some f => exact hp f rfl text reps

/-- Updating an existing binding makes the lookup return the new value. -/
theorem getKey_map_set (k : String) (v : JVal) :
    ∀ d : JDict, hasKey k d = true →
      getKey k (d.map (fun p => if p.1 = k then (k, v) else p)) = some v
  | [], h => by simp [hasKey] at h
  | p :: rest, h => by
      by_cases hp : p.1 = k
      · simp [getKey, List.find?_cons, hp]
      · have hr : hasKey k rest = true := by
          simp only [hasKey, List.any_cons, Bool.or_eq_true, decide_eq_true_eq] at h
          rcases h with h | h
          · exact absurd h hp
          · simpa [hasKey] using h
        have ih := getKey_map_set k v rest hr
        simpa [getKey, List.find?_cons, hp] using ih

/-- Appending a fresh binding makes the lookup return the new value. -/
theorem getKey_append_single (k : String) (v : JVal) :
    ∀ d : JDict, hasKey k d = false →
      getKey k (d ++ [(k, v)]) = some v
  | [], _ => by simp [getKey, List.find?]
  | p :: rest, h => by
      have hph : ¬(p.1 = k) ∧ hasKey k rest = false := by
        simpa [hasKey, List.any_cons] using h
      have ih := getKey_append_single k v rest hph.2
      simpa [getKey, List.find?_cons, hph.1] using ih

/-- Setting `d[k] = v` makes `d[k]` read back `v`. -/
theorem getKey_setKey_self (k : String) (v : JVal) (d : JDict) :
    getKey k (setKey k v d) = some v := by
  unfold setKey
  by_cases h : hasKey k d
  · rw [if_pos h]
    exact getKey_map_set k v d h
  · rw [if_neg h]
    exact getKey_append_single k v d (by simpa using h)

/-- Updating the binding of a different key does not change key presence. -/
theorem hasKey_map_set (k k' : String) (hne : k ≠ k') (v : JVal) :
    ∀ d : JDict, hasKey k (d.map (fun p => if p.1 = k' then (k', v) else p)) = hasKey k d
  | [] => rfl
  | p :: rest => by
      have ih := hasKey_map_set k k' hne v rest
      simp only [hasKey, List.map_cons, List.any_cons] at ih ⊢
      rw [ih]
      by_cases hp : p.1 = k'
      · rw [if_pos hp]
        have h1 : ¬((k', v).1 = k) := fun hk => hne (hk.symm)
        have h2 : ¬(p.1 = k) := fun hk => hne ((hp ▸ hk).symm)
        simp [h1, h2, hp]
      · rw [if_neg hp]

/-- Setting a different key does not change key presence. -/
theorem hasKey_setKey_ne (k k' : String) (hne : k ≠ k') (v : JVal) (d : JDict) :
    hasKey k (setKey k' v d) = hasKey k d := by
  unfold setKey
  by_cases h : hasKey k' d
  · rw [if_pos h]
    exact hasKey_map_set k k' hne v d
  · rw [if_neg h]
    have : ¬((k', v).1 = k) := fun hk => hne (hk.symm)
    simp [hasKey, List.any_append, this]

/-- The contextual loop appends exactly the dicts that carry a `word`
key, with `source` overwritten, in order. -/
theorem addContextual_eq (synonyms : List JDict) (ctx : List JElem) :
    addContextual synonyms ctx = synonyms ++ ctx.filterMap pickContextual := by
  induction ctx generalizing synonyms with
  | nil => simp [addContextual]
  | cons e rest ih =>
      cases e with
      | dict f =>
          by_cases hf : hasKey "word" f
          · have hstep : addContextual synonyms (.dict f :: rest) =
                addContextual (synonyms ++ [setKey "source" (.str "contextual") f]) rest := by
              simp [addContextual, hf]
            rw [hstep, ih]
            simp [pickContextual, hf]
          · have hstep : addContextual synonyms (.dict f :: rest) =
                addContextual synonyms rest := by
              simp [addContextual, hf]
            rw [hstep, ih]
            simp [pickContextual, hf]
      | nondict =>
          have hstep : addContextual synonyms (.nondict :: rest) =
              addContextual synonyms rest := rfl
          rw [hstep, ih]
          simp [pickContextual]

/-- Every datamuse response entry has a `word` key and source `datamuse`. -/
theorem datamuseEntry_fields (s : DSyn) :
    hasKey "word" (datamuseEntry s) = true ∧
    getKey "source" (datamuseEntry s) = some (.str "datamuse") := by
  constructor <;> rfl

/-- Entries produced by the contextual loop keep their `word` key and get
source `contextual`. -/
theorem pickContextual_fields (e : JElem) (d : JDict) (h : pickContextual e = some d) :
    hasKey "word" d = true ∧ getKey "source" d = some (.str "contextual") := by
  cases e with
  | nondict => simp [pickContextual] at h
  | dict f =>
      simp only [pickContextual] at h
      by_cases hf : hasKey "word" f
      · rw [if_pos hf] at h
        cases h with
        | refl =>
            refine ⟨?_, getKey_setKey_self _ _ _⟩
            rw [hasKey_setKey_ne "word" "source" (by decide) _ f]
            exact hf
      · rw [if_neg hf] at h
        cases h

/-! ### Claims -/

/-- C1: For every POST to the export handler whose body has an empty (or
absent) `text` field, the handler returns a 400 response with an error
message, regardless of the value of `format` — including when `format`
is also unrecognized (the empty-text check decides before format
validation). -/
theorem C1_export_empty_text_400
    (richPdf richDocx : Renderer) (nowFull nowFile : String)
    (ev : ExportEvent) (bd : ExportBody)
    (hm : ev.httpMethod.getD "POST" = "POST")
    (hb : ev.body = some bd)
    (ht : bd.text.getD "" = "") :
    export_handler richPdf richDocx nowFull nowFile ev =
      { statusCode := 400, body := .error "Text is required" } := by
  simp [export_handler, hm, hb, ht]

/-- Witness for C1: a POST with no `text` and an unrecognized
`format := "txt"` is answered 400 `Text is required`. -/
theorem C1_export_empty_text_400_witness :
    export_handler none none "2025-01-01 00:00:00" "20250101-000000"
      { httpMethod := some "POST"
        body := some { text := none, replacements := none, format := some "txt" } } =
      { statusCode := 400, body := .error "Text is required" } :=
  C1_export_empty_text_400 none none "2025-01-01 00:00:00" "20250101-000000"
    _ _ rfl rfl rfl

/-- C2: For every POST to the export handler with non-empty text, the
lowercased `format` (defaulting to `pdf` when absent) dispatches to the
PDF build routine when it is `pdf`, to the DOCX build routine when it is
`docx`, and yields 400 `Invalid format` for anything else; matching is
case-insensitive because of the lowercasing. -/
theorem C2_export_format_dispatch
    (richPdf richDocx : Renderer) (nowFull nowFile : String)
    (ev : ExportEvent) (bd : ExportBody)
    (hm : ev.httpMethod.getD "POST" = "POST")
    (hb : ev.body = some bd)
    (ht : ¬ bd.text.getD "" = "") :
    (pyLower (bd.format.getD "pdf") = "pdf" →
      export_handler richPdf richDocx nowFull nowFile ev =
        { statusCode := 200
          body := .exportOk ("synapse-export-" ++ nowFile ++ ".pdf")
            (b64encode (create_pdf richPdf nowFull (bd.text.getD "") (bd.replacements.getD [])))
            "application/pdf"
            (create_pdf richPdf nowFull (bd.text.getD "") (bd.replacements.getD [])).length }) ∧
    (bd.format = none → pyLower (bd.format.getD "pdf") = "pdf") ∧
    (pyLower (bd.format.getD "pdf") = "docx" →
      export_handler richPdf richDocx nowFull nowFile ev =
        { statusCode := 200
          body := .exportOk ("synapse-export-" ++ nowFile ++ ".docx")
            (b64encode (create_docx richDocx nowFull (bd.text.getD "") (bd.replacements.getD [])))
            "application/vnd.openxmlformats-officedocument.wordprocessingml.document"
            (create_docx richDocx nowFull (bd.text.getD "") (bd.replacements.getD [])).length }) ∧
    (¬ pyLower (bd.format.getD "pdf") = "pdf" →
      ¬ pyLower (bd.format.getD "pdf") = "docx" →
      export_handler richPdf richDocx nowFull nowFile ev =
        { statusCode := 400, body := .error "Invalid format. Use pdf or docx" }) := by
  refine ⟨?_, ?_, ?_, ?_⟩
  · intro hf
    simp [export_handler, hm, hb, ht, hf]
  · intro hf
    rw [hf]
    decide
  · intro hf
    have hne : ¬ pyLower (bd.format.getD "pdf") = "pdf" := by
      rw [hf]; decide
    simp [export_handler, hm, hb, ht, hf, hne]
  · intro hf1 hf2
    simp [export_handler, hm, hb, ht, hf1, hf2]

/-- Witness for C2: a POST with text `"x"` and `format := "Docx"`
(mixed case) is dispatched to the DOCX routine. -/
theorem C2_export_format_dispatch_witness :
    export_handler none none "T" "F"
      { httpMethod := some "POST"
        body := some { text := some "x", replacements := none, format := some "Docx" } } =
      { statusCode := 200
        body := .exportOk ("synapse-export-" ++ "F" ++ ".docx")
          (b64encode (create_docx none "T" "x" []))
          "application/vnd.openxmlformats-officedocument.wordprocessingml.document"
          (create_docx none "T" "x" []).length } :=
  (C2_export_format_dispatch none none "T" "F"
    { httpMethod := some "POST"
      body := some { text := some "x", replacements := none, format := some "Docx" } }
    { text := some "x", replacements := none, format := some "Docx" }
    rfl rfl (by decide)).2.2.1 (by decide)

/-- C3: When the rich renderer's dependency is unavailable (`ImportError`),
`create_pdf` and `create_docx` return the identical flat-text byte
encoding for the same inputs and the same generation time: the output of
the single fallback encoder, whose text is a title, the generation
timestamp, the body, and a textual replacement list (one line per
replacement) exactly when `replacements` is non-empty. -/
theorem C3_fallback_equivalence
    (nowFull text : String) (reps : List Replacement) :
    create_pdf none nowFull text reps = create_docx none nowFull text reps ∧
    create_pdf none nowFull text reps = create_simple_pdf_fallback nowFull text reps ∧
    (reps = [] →
      create_simple_pdf_fallback nowFull text reps =
        strBytes ("SYNAPSE - EXPORTED DOCUMENT\nGenerated: " ++ nowFull ++
          "\n\nMAIN TEXT:\n" ++ text ++ "\n\n")) ∧
    (reps ≠ [] →
      create_simple_pdf_fallback nowFull text reps =
        strBytes ("SYNAPSE - EXPORTED DOCUMENT\nGenerated: " ++ nowFull ++
          "\n\nMAIN TEXT:\n" ++ text ++ "\n\n" ++ "\nREPLACEMENT HISTORY:\n" ++
          String.join (reps.map replLine))) ∧
    (reps.map replLine).length = reps.length := by
  refine ⟨rfl, rfl, ?_, ?_, by simp⟩
  · intro h
    subst h
    rfl
  · intro h
    simp only [create_simple_pdf_fallback, fallbackContent]
    rw [if_neg (by simpa using h)]

/-- Witness for C3: a concrete one-replacement export under the fallback. -/
theorem C3_fallback_equivalence_witness :
    create_pdf none "T" "x" ([⟨some "a", some "b", some "t"⟩] : List Replacement) =
      create_docx none "T" "x" ([⟨some "a", some "b", some "t"⟩] : List Replacement) ∧
    create_pdf none "T" "x" ([⟨some "a", some "b", some "t"⟩] : List Replacement) =
      create_simple_pdf_fallback "T" "x" ([⟨some "a", some "b", some "t"⟩] : List Replacement) ∧
    (([⟨some "a", some "b", some "t"⟩] : List Replacement) = [] →
      create_simple_pdf_fallback "T" "x" ([⟨some "a", some "b", some "t"⟩] : List Replacement) =
        strBytes ("SYNAPSE - EXPORTED DOCUMENT\nGenerated: " ++ "T" ++
          "\n\nMAIN TEXT:\n" ++ "x" ++ "\n\n")) ∧
    (([⟨some "a", some "b", some "t"⟩] : List Replacement) ≠ [] →
      create_simple_pdf_fallback "T" "x" ([⟨some "a", some "b", some "t"⟩] : List Replacement) =
        strBytes ("SYNAPSE - EXPORTED DOCUMENT\nGenerated: " ++ "T" ++
          "\n\nMAIN TEXT:\n" ++ "x" ++ "\n\n" ++ "\nREPLACEMENT HISTORY:\n" ++
          String.join (([⟨some "a", some "b", some "t"⟩] : List Replacement).map replLine))) ∧
    (([⟨some "a", some "b", some "t"⟩] : List Replacement).map replLine).length =
      ([⟨some "a", some "b", some "t"⟩] : List Replacement).length :=
  C3_fallback_equivalence "T" "x" ([⟨some "a", some "b", some "t"⟩] : List Replacement)

/-- Packaging step for C10: any 200 body built as
`content := b64encode bytes, size := bytes.length` decodes back. -/
theorem contentSizeRoundtrip (bytes : List Nat) (content : String) (size : Nat)
    (hb : ∀ b ∈ bytes, b < 256) (hc : content = b64encode bytes)
    (hs : size = bytes.length) :
    ∃ bs : List Nat, content = b64encode bs ∧ size = bs.length ∧
      b64decode content = bs ∧ (b64decode content).length = size := by
  refine ⟨bytes, hc, hs, ?_, ?_⟩
  · rw [hc]
    exact b64decode_b64encode bytes hb
  · rw [hc, b64decode_b64encode bytes hb, hs]

/-- C10: In every 200 response of the export handler, `content` is the
base64 encoding of the generated file bytes and `size` equals the byte
length of those decoded bytes (not the length of the base64 string), so
decoding `content` always yields exactly `size` bytes. -/
theorem C10_export_content_size
    (richPdf richDocx : Renderer) (nowFull nowFile : String) (ev : ExportEvent)
    (hp : ∀ f, richPdf = some f → ∀ t r, ∀ b ∈ f t r, b < 256)
    (hd : ∀ f, richDocx = some f → ∀ t r, ∀ b ∈ f t r, b < 256)
    (fn content ct : String) (size : Nat)
    (h : export_handler richPdf richDocx nowFull nowFile ev =
      { statusCode := 200, body := .exportOk fn content ct size }) :
    ∃ bytes : List Nat, content = b64encode bytes ∧ size = bytes.length ∧
      b64decode content = bytes ∧ (b64decode content).length = size := by
  simp only [export_handler] at h
  split at h
  · simp at h
  · split at h
    · split at h
      · simp at h
      · split at h
        · simp at h
        · split at h
          · simp only [Response.mk.injEq, RespBody.exportOk.injEq, true_and] at h
            obtain ⟨-, hcontent, -, hsize⟩ := h
            exact contentSizeRoundtrip _ _ _
              (create_pdf_lt richPdf nowFull _ _ hp) hcontent.symm hsize.symm
          · split at h
            · simp only [Response.mk.injEq, RespBody.exportOk.injEq, true_and] at h
              obtain ⟨-, hcontent, -, hsize⟩ := h
              exact contentSizeRoundtrip _ _ _
                (create_docx_lt richDocx nowFull _ _ hd) hcontent.symm hsize.symm
            · simp at h
    · simp at h

/-- Witness for C10: a concrete fallback PDF export round-trips. -/
theorem C10_export_content_size_witness :
    ∃ bytes : List Nat,
      b64encode (create_pdf none "T" "x" []) = b64encode bytes ∧
      (create_pdf none "T" "x" []).length = bytes.length ∧
      b64decode (b64encode (create_pdf none "T" "x" [])) = bytes ∧
      (b64decode (b64encode (create_pdf none "T" "x" []))).length =
        (create_pdf none "T" "x" []).length :=
  C10_export_content_size none none "T" "F"
    { httpMethod := some "POST", body := some { text := some "x", replacements := none, format := none } }
    (fun _ hf => nomatch hf) (fun _ hf => nomatch hf)
    ("synapse-export-" ++ "F" ++ ".pdf") (b64encode (create_pdf none "T" "x" []))
    "application/pdf" (create_pdf none "T" "x" []).length rfl

/-- C4: For every POST to the synonym handler whose `word` field is empty
after trimming whitespace and lowercasing (including a whitespace-only
word, or an absent word), the handler returns 400 with an error message. -/
theorem C4_syn_empty_word_400
    (fetch : Option (List DApiItem)) (apiKey : Option String) (llm : Option (List JElem))
    (ev : SynEvent) (bd : SynBody)
    (hm : ev.httpMethod.getD "GET" = "POST")
    (hb : ev.body = some bd)
    (hw : pyLower (pyStrip (bd.word.getD "")) = "") :
    syn_handler fetch apiKey llm ev =
      { statusCode := 400, body := .error "Word is required" } := by
  simp [syn_handler, hm, hb, hw]

/-- Witness for C4: a whitespace-only word is rejected with 400. -/
theorem C4_syn_empty_word_400_witness :
    syn_handler none none none
      { httpMethod := some "POST"
        body := some { word := some "   ", context := none, lang := none } } =
      { statusCode := 400, body := .error "Word is required" } :=
  C4_syn_empty_word_400 none none none
    { httpMethod := some "POST"
      body := some { word := some "   ", context := none, lang := none } }
    { word := some "   ", context := none, lang := none }
    rfl rfl (by decide)

/-- C5: `detect_language` returns `ru` exactly when the count of Cyrillic
characters (U+0400–U+04FF) exceeds the count of Latin letters, and `en`
otherwise (so a tie, including a word with no letters, yields `en`); the
handler runs it only when no `lang` is supplied, and echoes a supplied
non-empty `lang` without detection. -/
theorem C5_language_detection :
    (∀ t : String,
      ((detect_language t = "ru") ↔
        t.data.countP (fun c => 0x400 ≤ c.toNat && c.toNat ≤ 0x4FF) >
        t.data.countP (fun c => 'a' ≤ c.toLower && c.toLower ≤ 'z')) ∧
      (t.data.countP (fun c => 0x400 ≤ c.toNat && c.toNat ≤ 0x4FF) =
        t.data.countP (fun c => 'a' ≤ c.toLower && c.toLower ≤ 'z') →
        detect_language t = "en")) ∧
    (∀ (fetch : Option (List DApiItem)) (apiKey : Option String)
        (llm : Option (List JElem)) (ev : SynEvent) (bd : SynBody),
      ev.httpMethod.getD "GET" = "POST" → ev.body = some bd →
      ¬ pyLower (pyStrip (bd.word.getD "")) = "" →
      (bd.lang.getD "" = "" →
        respLanguage (syn_handler fetch apiKey llm ev) =
          some (detect_language (pyLower (pyStrip (bd.word.getD ""))))) ∧
      (¬ bd.lang.getD "" = "" →
        respLanguage (syn_handler fetch apiKey llm ev) = some (bd.lang.getD ""))) := by
  constructor
  · intro t
    constructor
    · constructor
      · intro h
        by_contra hgt
        simp only [detect_language] at h
        rw [if_neg hgt] at h
        exact absurd h (by decide)
      · intro hgt
        simp only [detect_language]
        rw [if_pos hgt]
    · intro heq
      simp only [detect_language]
      rw [heq, if_neg (lt_irrefl _)]
  · intro fetch apiKey llm ev bd hm hb hw
    constructor
    · intro hl
      simp [syn_handler, respLanguage, hm, hb, hw, hl]
    · intro hl
      simp [syn_handler, respLanguage, hm, hb, hw, hl]

/-- Witness for C5: a Cyrillic word detects as `ru`, an empty word ties
to `en`, and a request without `lang` reports the detected language. -/
theorem C5_language_detection_witness :
    detect_language "привет" = "ru" ∧ detect_language "" = "en" ∧
    respLanguage (syn_handler none none none
      { httpMethod := some "POST"
        body := some { word := some "hi", context := none, lang := none } }) =
      some (detect_language "hi") :=
  ⟨(C5_language_detection.1 "привет").1.mpr (by decide),
   (C5_language_detection.1 "").2 (by decide),
   (C5_language_detection.2 none none none
      { httpMethod := some "POST"
        body := some { word := some "hi", context := none, lang := none } }
      { word := some "hi", context := none, lang := none }
      rfl rfl (by decide)).1 rfl⟩

/-- C6: For `lang == "en"` the handler appends at most 5 datamuse
entries, each of the exact shape
`{word, context: 'general synonym', source: 'datamuse'}`; for any other
language `get_datamuse_synonyms` returns `[]` for every fetch outcome
(no request is issued) and the handler's datamuse step contributes
nothing; with no context supplied every synonym therefore comes from
datamuse. -/
theorem C6_datamuse_en_only :
    (∀ (word lang : String) (fetch : Option (List DApiItem)),
      ¬ lang = "en" → get_datamuse_synonyms word lang fetch = []) ∧
    (∀ (word : String) (fetch : Option (List DApiItem)),
      (((get_datamuse_synonyms word "en" fetch).take 5).map datamuseEntry).length ≤ 5) ∧
    (∀ (word : String) (fetch : Option (List DApiItem)) (d : JDict),
      d ∈ ((get_datamuse_synonyms word "en" fetch).take 5).map datamuseEntry →
      ∃ w, d = [("word", .str w), ("context", .str "general synonym"),
        ("source", .str "datamuse")]) ∧
    (∀ (fetch : Option (List DApiItem)) (apiKey : Option String)
        (llm : Option (List JElem)) (ev : SynEvent) (bd : SynBody),
      ev.httpMethod.getD "GET" = "POST" → ev.body = some bd →
      ¬ pyLower (pyStrip (bd.word.getD "")) = "" →
      bd.lang.getD "" = "en" →
      ¬ (bd.context.getD "" ≠ "" ∧ (bd.context.getD "").length > 10) →
      syn_handler fetch apiKey llm ev =
        { statusCode := 200
          body := .synOk (pyLower (pyStrip (bd.word.getD ""))) "en"
            (((get_datamuse_synonyms (pyLower (pyStrip (bd.word.getD ""))) "en" fetch).take 5).map
              datamuseEntry)
            (((get_datamuse_synonyms (pyLower (pyStrip (bd.word.getD ""))) "en" fetch).take 5).map
              datamuseEntry).length }) ∧
    (∀ (fetch : Option (List DApiItem)) (apiKey : Option String)
        (llm : Option (List JElem)) (ev : SynEvent) (bd : SynBody) (l : String),
      ev.httpMethod.getD "GET" = "POST" → ev.body = some bd →
      ¬ pyLower (pyStrip (bd.word.getD "")) = "" →
      bd.lang.getD "" = l → ¬ l = "" → ¬ l = "en" →
      ¬ (bd.context.getD "" ≠ "" ∧ (bd.context.getD "").length > 10) →
      syn_handler fetch apiKey llm ev =
        { statusCode := 200
          body := .synOk (pyLower (pyStrip (bd.word.getD ""))) l [] 0 }) := by
  refine ⟨?_, ?_, ?_, ?_, ?_⟩
  · intro word lang fetch h
    simp [get_datamuse_synonyms, h]
  · intro word fetch
    simp only [List.length_map, List.length_take]
    omega
  · intro word fetch d hd
    obtain ⟨s, -, rfl⟩ := List.mem_map.1 hd
    exact ⟨s.word, rfl⟩
  · intro fetch apiKey llm ev bd hm hb hw hl hcc
    simp [syn_handler, hm, hb, hw, hl, hcc]
  · intro fetch apiKey llm ev bd l hm hb hw hl hl0 hlen hcc
    simp [syn_handler, hm, hb, hw, hl, hl0, hlen, hcc]

/-- Witness for C6: lang `"en"`, one datamuse hit, no context — the
response is exactly the datamuse entries. -/
theorem C6_datamuse_en_only_witness :
    syn_handler (some [{ word := "joyful", score := some 100 }]) none none
      { httpMethod := some "POST"
        body := some { word := some "happy", context := none, lang := some "en" } } =
      { statusCode := 200
        body := .synOk "happy" "en"
          (((get_datamuse_synonyms "happy" "en"
              (some [{ word := "joyful", score := some 100 }])).take 5).map datamuseEntry)
          (((get_datamuse_synonyms "happy" "en"
              (some [{ word := "joyful", score := some 100 }])).take 5).map
            datamuseEntry).length } :=
  C6_datamuse_en_only.2.2.2.1 (some [{ word := "joyful", score := some 100 }]) none none
    { httpMethod := some "POST"
      body := some { word := some "happy", context := none, lang := some "en" } }
    { word := some "happy", context := none, lang := some "en" }
    rfl rfl (by decide) rfl (by decide)

/-- C8: If the outbound datamuse call fails (fetch oracle `none`),
`get_datamuse_synonyms` returns `[]` instead of raising, and the handler
still returns 200 with `synonyms = []` and `count = 0` (no contextual
results), never a 500 caused by the lookup failure. -/
theorem C8_datamuse_failure_swallowed :
    (∀ word lang : String, get_datamuse_synonyms word lang none = []) ∧
    (∀ (apiKey : Option String) (llm : Option (List JElem))
        (ev : SynEvent) (bd : SynBody),
      ev.httpMethod.getD "GET" = "POST" → ev.body = some bd →
      ¬ pyLower (pyStrip (bd.word.getD "")) = "" →
      bd.context.getD "" = "" →
      syn_handler none apiKey llm ev =
        { statusCode := 200
          body := .synOk (pyLower (pyStrip (bd.word.getD "")))
            (if bd.lang.getD "" = "" then
              detect_language (pyLower (pyStrip (bd.word.getD "")))
            else bd.lang.getD "") [] 0 }) := by
  constructor
  · intro word lang
    simp [get_datamuse_synonyms]
  · intro apiKey llm ev bd hm hb hw hc
    simp [syn_handler, get_datamuse_synonyms, hm, hb, hw, hc]

/-- Witness for C8: a failed datamuse call on an English request still
yields 200 with an empty synonym list. -/
theorem C8_datamuse_failure_swallowed_witness :
    syn_handler none none none
      { httpMethod := some "POST"
        body := some { word := some "happy", context := none, lang := some "en" } } =
      { statusCode := 200
        body := .synOk "happy"
          (if ("en" : String) = "" then detect_language "happy" else "en") [] 0 } :=
  C8_datamuse_failure_swallowed.2 none none
    { httpMethod := some "POST"
      body := some { word := some "happy", context := none, lang := some "en" } }
    { word := some "happy", context := none, lang := some "en" }
    rfl rfl (by decide) rfl

/-- Members of the handler's datamuse base list are datamuse entries. -/
theorem mem_dm_base (word lang : String) (fetch : Option (List DApiItem)) (d : JDict)
    (hd : d ∈ (if lang = "en" then
      ((get_datamuse_synonyms word lang fetch).take 5).map datamuseEntry else [])) :
    ∃ s, d = datamuseEntry s := by
  by_cases hl : lang = "en"
  · rw [if_pos hl] at hd
    obtain ⟨s, -, rfl⟩ := List.mem_map.1 hd
    exact ⟨s, rfl⟩
  · rw [if_neg hl] at hd
    simp at hd

/-- Shape of every 200 synonyms response: the count is the list length,
and every member is either a datamuse entry or a contextual-loop
survivor admitted because the context condition held. -/
theorem syn_handler_200_shape
    (fetch : Option (List DApiItem)) (apiKey : Option String) (llm : Option (List JElem))
    (ev : SynEvent) (w l : String) (syns : List JDict) (cnt : Nat)
    (h : syn_handler fetch apiKey llm ev =
      { statusCode := 200, body := .synOk w l syns cnt }) :
    cnt = syns.length ∧
    ∃ bd : SynBody, ev.body = some bd ∧
      ∀ d ∈ syns, (∃ s, d = datamuseEntry s) ∨
        ((bd.context.getD "" ≠ "" ∧ (bd.context.getD "").length > 10) ∧
          ∃ e, pickContextual e = some d ∧
            e ∈ get_contextual_synonyms (pyLower (pyStrip (bd.word.getD "")))
              (bd.context.getD "") l apiKey llm) := by
  simp only [syn_handler] at h
  split at h
  · simp at h
  · split at h
    · split at h
      · simp at h
      · rename_i bd heq
        split at h
        · simp at h
        · simp only [Response.mk.injEq, RespBody.synOk.injEq, true_and] at h
          obtain ⟨hword, hlang, hsyns, hcnt⟩ := h
          refine ⟨by rw [← hcnt, ← hsyns], bd, heq, ?_⟩
          intro d hd
          rw [← hsyns] at hd
          by_cases hcc : bd.context.getD "" ≠ "" ∧ (bd.context.getD "").length > 10
          · rw [if_pos hcc, addContextual_eq] at hd
            rcases List.mem_append.1 hd with hmem | hmem
            · exact Or.inl (mem_dm_base _ _ fetch d hmem)
            · obtain ⟨e, he, hpe⟩ := List.mem_filterMap.1 hmem
              rw [hlang] at he
              exact Or.inr ⟨hcc, e, hpe, he⟩
          · rw [if_neg hcc] at hd
            exact Or.inl (mem_dm_base _ _ fetch d hd)
    · simp at h

/-- C7: The contextual lookup is attempted iff the context is longer
than 10 characters and the LLM credential is set and non-empty; when
either condition fails, zero `source: contextual` entries appear and the
response does not depend on the LLM oracle at all. -/
theorem C7_contextual_gating :
    (∀ s : String, (s ≠ "" ∧ s.length > 10) ↔ s.length > 10) ∧
    (∀ (word context lang : String) (apiKey : Option String) (llm : Option (List JElem)),
      apiKey.getD "" = "" → get_contextual_synonyms word context lang apiKey llm = []) ∧
    (∀ (fetch : Option (List DApiItem)) (apiKey : Option String)
        (llm llm' : Option (List JElem)) (ev : SynEvent) (bd : SynBody),
      ev.body = some bd → (bd.context.getD "").length ≤ 10 →
      syn_handler fetch apiKey llm ev = syn_handler fetch apiKey llm' ev) ∧
    (∀ (fetch : Option (List DApiItem)) (apiKey : Option String)
        (llm : Option (List JElem)) (ev : SynEvent) (bd : SynBody)
        (w l : String) (syns : List JDict) (cnt : Nat),
      ev.body = some bd →
      ((bd.context.getD "").length ≤ 10 ∨ apiKey.getD "" = "") →
      syn_handler fetch apiKey llm ev =
        { statusCode := 200, body := .synOk w l syns cnt } →
      ∀ d ∈ syns, ¬ getKey "source" d = some (.str "contextual")) ∧
    (∀ (fetch : Option (List DApiItem)) (apiKey : Option String)
        (llm : Option (List JElem)) (ev : SynEvent) (bd : SynBody),
      ev.httpMethod.getD "GET" = "POST" → ev.body = some bd →
      ¬ pyLower (pyStrip (bd.word.getD "")) = "" →
      (bd.context.getD "").length > 10 →
      ¬ apiKey.getD "" = "" →
      syn_handler fetch apiKey llm ev =
        { statusCode := 200
          body := .synOk (pyLower (pyStrip (bd.word.getD "")))
            (if bd.lang.getD "" = "" then
              detect_language (pyLower (pyStrip (bd.word.getD "")))
            else bd.lang.getD "")
            (addContextual
              (if (if bd.lang.getD "" = "" then
                    detect_language (pyLower (pyStrip (bd.word.getD "")))
                  else bd.lang.getD "") = "en" then
                ((get_datamuse_synonyms (pyLower (pyStrip (bd.word.getD "")))
                  (if bd.lang.getD "" = "" then
                    detect_language (pyLower (pyStrip (bd.word.getD "")))
                  else bd.lang.getD "") fetch).take 5).map datamuseEntry
              else [])
              (llm.getD []))
            (addContextual
              (if (if bd.lang.getD "" = "" then
                    detect_language (pyLower (pyStrip (bd.word.getD "")))
                  else bd.lang.getD "") = "en" then
                ((get_datamuse_synonyms (pyLower (pyStrip (bd.word.getD "")))
                  (if bd.lang.getD "" = "" then
                    detect_language (pyLower (pyStrip (bd.word.getD "")))
                  else bd.lang.getD "") fetch).take 5).map datamuseEntry
              else [])
              (llm.getD [])).length }) := by
  refine ⟨?_, ?_, ?_, ?_, ?_⟩
  · intro s
    constructor
    · intro h
      exact h.2
    · intro h
      refine ⟨?_, h⟩
      intro hs
      rw [hs] at h
      simp at h
  · intro word context lang apiKey llm hk
    simp [get_contextual_synonyms, hk]
  · intro fetch apiKey llm llm' ev bd hb hlen
    have hcc : ¬ (bd.context.getD "" ≠ "" ∧ (bd.context.getD "").length > 10) := by
      rintro ⟨-, hgt⟩
      omega
    simp [syn_handler, hb, hcc]
  · intro fetch apiKey llm ev bd w l syns cnt hb hcond h d hd
    obtain ⟨-, bd', heq, hmem⟩ := syn_handler_200_shape _ _ _ _ _ _ _ _ h
    rw [hb] at heq
    cases heq
    rcases hmem d hd with ⟨s, rfl⟩ | ⟨hcc, e, hpe, he⟩
    · intro hck
      rw [(datamuseEntry_fields s).2] at hck
      exact absurd hck (by decide)
    · rcases hcond with hlen | hkey
      · exact absurd hcc.2 (by omega)
      · rw [show get_contextual_synonyms (pyLower (pyStrip (bd.word.getD "")))
            (bd.context.getD "") l apiKey llm = [] by
              simp [get_contextual_synonyms, hkey]] at he
        simp at he
  · intro fetch apiKey llm ev bd hm hb hw hlen hkey
    have hne : bd.context.getD "" ≠ "" := by
      intro hs
      rw [hs] at hlen
      simp at hlen
    simp [syn_handler, get_contextual_synonyms, hm, hb, hw, hne, hlen, hkey]

/-- Witness for C7: long context plus configured credential — the LLM
reply (a single non-dict element) flows into the contextual loop. -/
theorem C7_contextual_gating_witness :
    syn_handler none (some "k") (some [.nondict])
      { httpMethod := some "POST"
        body := some { word := some "hi", context := some "a long long context", lang := none } } =
      { statusCode := 200
        body := .synOk "hi" (detect_language "hi")
          (addContextual
            (if detect_language "hi" = "en" then
              ((get_datamuse_synonyms "hi" (detect_language "hi") none).take 5).map datamuseEntry
            else [])
            [JElem.nondict])
          (addContextual
            (if detect_language "hi" = "en" then
              ((get_datamuse_synonyms "hi" (detect_language "hi") none).take 5).map datamuseEntry
            else [])
            [JElem.nondict]).length } :=
  C7_contextual_gating.2.2.2.2 none (some "k") (some [.nondict])
    { httpMethod := some "POST"
      body := some { word := some "hi", context := some "a long long context", lang := none } }
    { word := some "hi", context := some "a long long context", lang := none }
    rfl rfl (by decide) (by decide) (by decide)

/-- C9: Exactly the LLM-returned elements that are dicts with a `word`
key are appended, each with `source` overwritten to `contextual`; other
elements are dropped; hence every synonym in a 200 response has a `word`
key and source `datamuse` or `contextual`, and `count` is the length of
the synonyms list. -/
theorem C9_contextual_filter :
    (∀ (synonyms : List JDict) (ctx : List JElem),
      addContextual synonyms ctx = synonyms ++ ctx.filterMap pickContextual) ∧
    (∀ (e : JElem) (d : JDict), pickContextual e = some d →
      hasKey "word" d = true ∧ getKey "source" d = some (.str "contextual")) ∧
    (∀ f : JDict, hasKey "word" f = false → pickContextual (.dict f) = none) ∧
    (pickContextual .nondict = none) ∧
    (∀ (fetch : Option (List DApiItem)) (apiKey : Option String)
        (llm : Option (List JElem)) (ev : SynEvent)
        (w l : String) (syns : List JDict) (cnt : Nat),
      syn_handler fetch apiKey llm ev =
        { statusCode := 200, body := .synOk w l syns cnt } →
      cnt = syns.length ∧
      ∀ d ∈ syns, hasKey "word" d = true ∧
        (getKey "source" d = some (.str "datamuse") ∨
          getKey "source" d = some (.str "contextual"))) := by
  refine ⟨addContextual_eq, pickContextual_fields, ?_, rfl, ?_⟩
  · intro f hf
    simp [pickContextual, hf]
  · intro fetch apiKey llm ev w l syns cnt h
    obtain ⟨hcnt, bd, -, hmem⟩ := syn_handler_200_shape _ _ _ _ _ _ _ _ h
    refine ⟨hcnt, ?_⟩
    intro d hd
    rcases hmem d hd with ⟨s, rfl⟩ | ⟨-, e, hpe, -⟩
    · exact ⟨(datamuseEntry_fields s).1, Or.inl (datamuseEntry_fields s).2⟩
    · obtain ⟨h1, h2⟩ := pickContextual_fields e d hpe
      exact ⟨h1, Or.inr h2⟩

/-- Witness for C9: an LLM reply with one good dict, one dict without
`word`, and one non-dict — only the good dict survives, retagged. -/
theorem C9_contextual_filter_witness :
    1 = [[("word", JVal.str "glad"), ("source", JVal.str "contextual")]].length ∧
    ∀ d ∈ [[("word", JVal.str "glad"), ("source", JVal.str "contextual")]],
      hasKey "word" d = true ∧
      (getKey "source" d = some (.str "datamuse") ∨
        getKey "source" d = some (.str "contextual")) :=
  C9_contextual_filter.2.2.2.2 none (some "k")
    (some [.dict [("word", .str "glad"), ("source", .str "model")],
           .dict [("x", .str "y")], .nondict])
    { httpMethod := some "POST"
      body := some { word := some "happy", context := some "a long enough context", lang := some "ru" } }
    "happy" "ru" [[("word", JVal.str "glad"), ("source", JVal.str "contextual")]] 1
    (by decide)
